import Mathlib

/-!
Verification of the ALSA MIDI wrapper (`src/pysynth/wrappers/midi/alsa/midi_alsa.c`).

The C file defines a raw-event reader over the ALSA sequencer API.  We give a
shallow embedding of its data model and operations:

* `SndSeqEvent` models the fields of `snd_seq_event_t` that the C code reads:
  the type discriminant, the tick counter, the wall-clock timestamp pair, and
  the `data.note` / `data.control` sub-structure views of the payload union.
* `ALSAEvent` models the `struct ALSAEvent` it populates.
* `create_pack` models the normalizer, `midi_process` the classifier, and
  `midi_read` the top-level entry point, with the cursor (the static `event`
  variable) modelled as a one-slot address space updated in place.

All machine-integer fields are copied between same-width C types with no
arithmetic, so they are modelled as `Nat` / `Int` values carried unchanged.
-/

/-- The `data.note` view of the raw event's payload union (`snd_seq_ev_note`):
fields `note`, `velocity`, `off_velocity`, `duration`, `channel`. -/
structure NoteData where
  note : Nat
  velocity : Nat
  off_velocity : Nat
  duration : Nat
  channel : Nat
deriving DecidableEq, Repr

/-- The `data.control` view of the raw event's payload union
(`snd_seq_ev_ctrl`): fields `param` (unsigned) and `value` (signed). -/
structure ControlData where
  param : Nat
  value : Int
deriving DecidableEq, Repr

/-- The portion of a raw driver event (`snd_seq_event_t`) read by the C code:
the `type` discriminant, `time.tick`, the `time.time` wall-clock pair, and the
two payload-union views.  Both union views are carried so that the unconditional
reads the code performs on each view are expressible for every event shape. -/
structure SndSeqEvent where
  type : Nat
  tick : Nat
  tv_sec : Nat
  tv_nsec : Nat
  note : NoteData
  control : ControlData
deriving DecidableEq, Repr

/-- `SND_SEQ_EVENT_NOTEON` from `alsa/seq_event.h`. -/
def SND_SEQ_EVENT_NOTEON : Nat := 6

/-- `SND_SEQ_EVENT_NOTEOFF` from `alsa/seq_event.h`. -/
def SND_SEQ_EVENT_NOTEOFF : Nat := 7

/-- `SND_SEQ_EVENT_CONTROLLER` from `alsa/seq_event.h`. -/
def SND_SEQ_EVENT_CONTROLLER : Nat := 10

/-- The normalized event record `struct ALSAEvent` from the C file. -/
structure ALSAEvent where
  type : Nat
  tick_time : Nat
  time_sec : Nat
  time_nano : Nat
  note : Nat
  velocity : Nat
  off_velocity : Nat
  duration : Nat
  param : Nat
  value : Int
  channel : Nat
deriving DecidableEq, Repr

/-- `create_pack`: builds the `ALSAEvent` written into the static cursor slot.
Every assignment in the C body is an unconditional field copy (no branching on
`ev->type`), so the function is a pure record construction. -/
def create_pack (ev : SndSeqEvent) : ALSAEvent :=
  { type := ev.type
    tick_time := ev.tick
    time_sec := ev.tv_sec
    time_nano := ev.tv_nsec
    note := ev.note.note
    velocity := ev.note.velocity
    off_velocity := ev.note.off_velocity
    duration := ev.note.duration
    param := ev.control.param
    value := ev.control.value
    channel := ev.note.channel }

/-- The record emitted by `midi_process` for one event: the payload of the one
classification line it prints. -/
inductive Report where
  | note (tick : Nat) (isOn : Bool) (noteNum : Nat) (velocity : Nat)
  | control (tick : Nat) (param : Nat) (value : Int)
  | unknown (tick : Nat)
deriving DecidableEq, Repr

/-- `midi_process`: the classifier's dispatch on `ev->type`, transliterated
from the `if` / `else if` / `else` chain of the C body.  It reads only the raw
event passed to it. -/
def midi_process (ev : SndSeqEvent) : Report :=
  if ev.type = SND_SEQ_EVENT_NOTEON ∨ ev.type = SND_SEQ_EVENT_NOTEOFF then
    Report.note ev.tick (ev.type = SND_SEQ_EVENT_NOTEON) ev.note.note ev.note.velocity
  else if ev.type = SND_SEQ_EVENT_CONTROLLER then
    Report.control ev.tick ev.control.param ev.control.value
  else
    Report.unknown ev.tick

/-! ### Claims C1, C2, C3: field copies performed by `create_pack` -/

/-- C1: for note-on/note-off raw events the normalized `note`, `velocity` and
`channel` equal the raw `data.note` sub-payload values, and for controller raw
events the normalized `param` and `value` equal the raw `data.control`
sub-payload values. -/
theorem create_pack_note_and_controller_fields (ev : SndSeqEvent) :
    ((ev.type = SND_SEQ_EVENT_NOTEON ∨ ev.type = SND_SEQ_EVENT_NOTEOFF) →
      (create_pack ev).note = ev.note.note ∧
      (create_pack ev).velocity = ev.note.velocity ∧
      (create_pack ev).channel = ev.note.channel) ∧
    (ev.type = SND_SEQ_EVENT_CONTROLLER →
      (create_pack ev).param = ev.control.param ∧
      (create_pack ev).value = ev.control.value) :=
  ⟨fun _ => ⟨rfl, rfl, rfl⟩, fun _ => ⟨rfl, rfl⟩⟩

/-- Witness for C1: a concrete note-on event and a concrete controller event,
with the hypotheses discharged explicitly. -/
theorem create_pack_note_and_controller_fields_witness :
    ((create_pack ⟨6, 100, 0, 0, ⟨64, 127, 0, 0, 0⟩, ⟨0, 0⟩⟩).note = 64 ∧
      (create_pack ⟨6, 100, 0, 0, ⟨64, 127, 0, 0, 0⟩, ⟨0, 0⟩⟩).velocity = 127 ∧
      (create_pack ⟨6, 100, 0, 0, ⟨64, 127, 0, 0, 0⟩, ⟨0, 0⟩⟩).channel = 0) ∧
    ((create_pack ⟨10, 50, 0, 0, ⟨0, 0, 0, 0, 0⟩, ⟨7, 100⟩⟩).param = 7 ∧
      (create_pack ⟨10, 50, 0, 0, ⟨0, 0, 0, 0, 0⟩, ⟨7, 100⟩⟩).value = 100) :=
  ⟨(create_pack_note_and_controller_fields
      ⟨6, 100, 0, 0, ⟨64, 127, 0, 0, 0⟩, ⟨0, 0⟩⟩).1 (Or.inl rfl),
   (create_pack_note_and_controller_fields
      ⟨10, 50, 0, 0, ⟨0, 0, 0, 0, 0⟩, ⟨7, 100⟩⟩).2 rfl⟩

/-- C2: `create_pack` copies the time fields for every raw event, with no
branching on the type discriminant: `tick_time` is the raw tick counter and
`time_sec` / `time_nano` are the raw wall-clock components. -/
theorem create_pack_time_fields (ev : SndSeqEvent) :
    (create_pack ev).tick_time = ev.tick ∧
    (create_pack ev).time_sec = ev.tv_sec ∧
    (create_pack ev).time_nano = ev.tv_nsec :=
  ⟨rfl, rfl, rfl⟩

/-- C3: `create_pack` unconditionally copies all note-class fields (`note`,
`velocity`, `off_velocity`, `duration`, `channel`) and controller-class fields
(`param`, `value`) from the raw union views, for every raw event whatever its
type discriminant. -/
theorem create_pack_unconditional_payload_copy (ev : SndSeqEvent) :
    (create_pack ev).note = ev.note.note ∧
    (create_pack ev).velocity = ev.note.velocity ∧
    (create_pack ev).off_velocity = ev.note.off_velocity ∧
    (create_pack ev).duration = ev.note.duration ∧
    (create_pack ev).channel = ev.note.channel ∧
    (create_pack ev).param = ev.control.param ∧
    (create_pack ev).value = ev.control.value :=
  ⟨rfl, rfl, rfl, rfl, rfl, rfl, rfl⟩

/-! ### Claims C4, C5: the type discriminant and the classifier's partition -/

/-- Modelled from the spec: the closed set of semantic event categories the
spec assigns to the normalized `kind` discriminant (the C code has no such
type; its `event.type` is a raw byte). -/
inductive Kind where
  | NoteOn
  | NoteOff
  | Controller
  | Unknown
deriving DecidableEq, Repr

/-- Modelled from the spec: the mapping of a raw type discriminant into the
closed `Kind` set that the spec attributes to normalization. -/
def kindOf (t : Nat) : Kind :=
  if t = SND_SEQ_EVENT_NOTEON then Kind.NoteOn
  else if t = SND_SEQ_EVENT_NOTEOFF then Kind.NoteOff
  else if t = SND_SEQ_EVENT_CONTROLLER then Kind.Controller
  else Kind.Unknown

/-- Modelled from the spec: the classifier as the spec states it, a pure
dispatch over the `Kind` category of the event. -/
def classify_spec (ev : SndSeqEvent) : Report :=
  match kindOf ev.type with
  | Kind.NoteOn => Report.note ev.tick true ev.note.note ev.note.velocity
  | Kind.NoteOff => Report.note ev.tick false ev.note.note ev.note.velocity
  | Kind.Controller => Report.control ev.tick ev.control.param ev.control.value
  | Kind.Unknown => Report.unknown ev.tick

/-- C4 counterexample: `create_pack` does not collapse unrecognized type
discriminants into a single `Unknown` kind — it passes the raw code through
unchanged, so two unrecognized raw codes (42 and 43, neither note-on, note-off
nor controller) yield two distinct normalized discriminants, and no single
catch-all value exists. -/
theorem create_pack_type_not_collapsed :
    (create_pack ⟨42, 0, 0, 0, ⟨0, 0, 0, 0, 0⟩, ⟨0, 0⟩⟩).type = 42 ∧
    (create_pack ⟨43, 0, 0, 0, ⟨0, 0, 0, 0, 0⟩, ⟨0, 0⟩⟩).type = 43 ∧
    ¬ ∃ u : Nat, ∀ ev : SndSeqEvent,
      ev.type ≠ SND_SEQ_EVENT_NOTEON ∧ ev.type ≠ SND_SEQ_EVENT_NOTEOFF ∧
        ev.type ≠ SND_SEQ_EVENT_CONTROLLER →
      (create_pack ev).type = u := by
  refine ⟨rfl, rfl, ?_⟩
  rintro ⟨u, h⟩
  have h42 := h ⟨42, 0, 0, 0, ⟨0, 0, 0, 0, 0⟩, ⟨0, 0⟩⟩ (by decide)
  have h43 := h ⟨43, 0, 0, 0, ⟨0, 0, 0, 0, 0⟩, ⟨0, 0⟩⟩ (by decide)
  simp [create_pack] at h42 h43
  omega

/-- C4 amended: normalization cannot fail and copies the raw type discriminant
into the normalized event unchanged (pass-through); the collapse of all
unrecognized codes into a single `Unknown` category happens only in the
classifier's report, which emits the `Unknown` record exactly for the raw codes
outside the recognized set. -/
theorem create_pack_type_passthrough (ev : SndSeqEvent) :
    (create_pack ev).type = ev.type ∧
    (midi_process ev = Report.unknown ev.tick ↔ kindOf ev.type = Kind.Unknown) := by
  refine ⟨rfl, ?_⟩
  unfold midi_process kindOf
  simp only [SND_SEQ_EVENT_NOTEON, SND_SEQ_EVENT_NOTEOFF, SND_SEQ_EVENT_CONTROLLER]
  by_cases h6 : ev.type = 6 <;> by_cases h7 : ev.type = 7 <;>
    by_cases h10 : ev.type = 10 <;> simp [h6, h7, h10]

/-- C5: the classifier realizes exactly the four-way partition the spec
describes: note-on/note-off yield the `{tick, marker, note, velocity}` record
with the marker matching the discriminant, controller yields the
`{tick, param, value}` record, and every other type yields the bare
`{tick}` Unknown record. -/
theorem midi_process_four_way_partition (ev : SndSeqEvent) :
    midi_process ev = classify_spec ev := by
  unfold midi_process classify_spec kindOf
  simp only [SND_SEQ_EVENT_NOTEON, SND_SEQ_EVENT_NOTEOFF, SND_SEQ_EVENT_CONTROLLER]
  by_cases h6 : ev.type = 6 <;> by_cases h7 : ev.type = 7 <;>
    by_cases h10 : ev.type = 10 <;> simp [h6, h7, h10]

/-! ### Claims C7, C8: the cursor slot and the order of operations in
`midi_read` -/

/-- Addresses of the modelled static storage. -/
abbrev Addr := Nat

/-- The address of the static `event` variable, the single cursor slot. -/
def eventAddr : Addr := 0

/-- The modelled static memory: contents of each address. -/
def Mem := Addr → ALSAEvent

/-- A store to one address of the modelled static memory. -/
def Mem.store (m : Mem) (a : Addr) (v : ALSAEvent) : Mem :=
  fun x => if x = a then v else m x

/-- One observable action inside the body of `midi_read`: either the classifier
`midi_process` is invoked (with the event it receives as input), or
`create_pack` writes the cursor slot. -/
inductive ReadAction where
  | classify (input : SndSeqEvent)
  | writeSlot (v : ALSAEvent)
deriving DecidableEq, Repr

/-- True exactly on classifier invocations. -/
def ReadAction.isClassify : ReadAction → Bool
  | ReadAction.classify _ => true
  | ReadAction.writeSlot _ => false

/-- True exactly on cursor-slot writes. -/
def ReadAction.isWriteSlot : ReadAction → Bool
  | ReadAction.classify _ => false
  | ReadAction.writeSlot _ => true

/-- The value returned by one call of `midi_read`: the pointer it returns
(`&event`), the static memory afterwards, and the ordered list of actions its
body performed. -/
structure ReadResult where
  ref : Addr
  mem : Mem
  trace : List ReadAction

/-- `midi_read`: transliteration of the C body on one delivered raw event.
The statements run in source order: `midi_process(thing)` on the raw event
first, then `create_pack(thing)` which stores the normalized record into the
static `event` slot; the function returns `&event`. -/
def midi_read (raw : SndSeqEvent) (m : Mem) : ReadResult :=
  { ref := eventAddr
    mem := m.store eventAddr (create_pack raw)
    trace := [ReadAction.classify raw, ReadAction.writeSlot (create_pack raw)] }

/-- C7: the cursor is one slot with last-write-wins contents.  After reading A
and then B, the pointer obtained from the first read equals the pointer from
the second read (and is the one static address on every call), and
dereferencing the first pointer after the second read yields B's normalized
record, not A's. -/
theorem midi_read_single_slot_last_write_wins (m : Mem) (A B : SndSeqEvent) :
    (midi_read A m).ref = (midi_read B (midi_read A m).mem).ref ∧
    (midi_read A m).ref = eventAddr ∧
    (midi_read B (midi_read A m).mem).mem (midi_read A m).ref = create_pack B := by
  refine ⟨rfl, rfl, ?_⟩
  simp [midi_read, Mem.store]

/-- C8 counterexample: on a concrete read cycle the cursor-slot write performed
by the normalizer does not precede the classifier's dispatch — the trace of
`midi_read` dispatches the classifier first (index 0) and writes the slot
second (index 1), so the claimed ordering is false. -/
theorem midi_read_write_not_before_classify :
    ¬ ((midi_read ⟨6, 100, 0, 0, ⟨64, 127, 0, 0, 0⟩, ⟨0, 0⟩⟩
          (fun _ => create_pack ⟨0, 0, 0, 0, ⟨0, 0, 0, 0, 0⟩, ⟨0, 0⟩⟩)).trace.findIdx
          ReadAction.isWriteSlot <
        (midi_read ⟨6, 100, 0, 0, ⟨64, 127, 0, 0, 0⟩, ⟨0, 0⟩⟩
          (fun _ => create_pack ⟨0, 0, 0, 0, ⟨0, 0, 0, 0, 0⟩, ⟨0, 0⟩⟩)).trace.findIdx
          ReadAction.isClassify) := by
  simp [midi_read, List.findIdx, List.findIdx.go, ReadAction.isClassify, ReadAction.isWriteSlot]

/-- C8 amended: in every read cycle of `midi_read`, the classifier dispatches
before the normalizer writes the cursor slot, the only classifier invocation
receives the raw driver event (not the normalized slot content), and the only
slot write stores the normalized record. -/
theorem midi_read_classify_before_write (raw : SndSeqEvent) (m : Mem) :
    (midi_read raw m).trace.findIdx ReadAction.isClassify <
      (midi_read raw m).trace.findIdx ReadAction.isWriteSlot ∧
    (midi_read raw m).trace.filter ReadAction.isClassify = [ReadAction.classify raw] ∧
    (midi_read raw m).trace.filter ReadAction.isWriteSlot =
      [ReadAction.writeSlot (create_pack raw)] := by
  refine ⟨?_, ?_, ?_⟩ <;>
    simp [midi_read, List.findIdx, List.findIdx.go, List.filter,
      ReadAction.isClassify, ReadAction.isWriteSlot]

/-! ### Claim C6: the controller report line -/

/-- Lowercase hexadecimal digit string of `n`, as `printf %x` renders the
numeric value. -/
def hexString (n : Nat) : String :=
  String.mk (Nat.toDigits 16 n)

/-- `printf "%2x"`: hexadecimal with a minimum field width of 2, right
justified with a space pad. -/
def fmt2x (n : Nat) : String :=
  let s := hexString n
  if s.length < 2 then " " ++ s else s

/-- The unsigned 32-bit reinterpretation a signed `int` undergoes when printed
with `%x`. -/
def uint32OfInt (v : Int) : Nat :=
  (v % (2 ^ 32 : Int)).toNat

/-- The signed 32-bit reinterpretation an `unsigned int` undergoes when printed
with `%d`. -/
def int32OfNat (n : Nat) : Int :=
  if n < 2 ^ 31 then (n : Int) else (n : Int) - 2 ^ 32

/-- `printf "%d"` applied to an `unsigned int` argument. -/
def fmtd (n : Nat) : String :=
  toString (int32OfNat n)

/-- The classification line `midi_process` prints for a report, transliterated
from the three `printf` format strings of the C body (without the trailing
newline). -/
def reportLine : Report → String
  | Report.note t isOn n v =>
      "[" ++ fmtd t ++ "] Note " ++ (if isOn then "on " else "off") ++ ": " ++
        fmt2x n ++ " vel(" ++ fmt2x v ++ ")"
  | Report.control t p v =>
      "[" ++ fmtd t ++ "] Control: " ++ fmt2x p ++ " val(" ++
        fmt2x (uint32OfInt v) ++ ")"
  | Report.unknown t =>
      "[" ++ fmtd t ++ "] Unknown: Unhandled Event Received"

/-- Whether `pat` matches at the head of `l`. -/
def matchesAt : List Char → List Char → Bool
  | [], _ => true
  | _ :: _, [] => false
  | a :: as, b :: bs => a = b && matchesAt as bs

/-- Whether `pat` occurs as a contiguous run anywhere in `l`. -/
def occursIn (pat : List Char) : List Char → Bool
  | [] => pat.isEmpty
  | l@(_ :: t) => matchesAt pat l || occursIn pat t

/-- Substring containment on strings. -/
def strContains (s pat : String) : Bool :=
  occursIn pat.toList s.toList

/-- The raw controller event of the scenario: type controller, tick 50,
param 7, value 100. -/
def controllerRaw50 : SndSeqEvent :=
  ⟨SND_SEQ_EVENT_CONTROLLER, 50, 0, 0, ⟨0, 0, 0, 0, 0⟩, ⟨7, 100⟩⟩

/-- C6 counterexample: for the raw controller event with tick 50, param 7,
value 100, the emitted report line is rendered with `%2x`, i.e. in hexadecimal
with width 2, so it reads `"[50] Control:  7 val(64)"` and does not contain the
claimed text `"[50] Control: 7 val(100)"`. -/
theorem controller_report_line_not_decimal :
    reportLine (midi_process controllerRaw50) = "[50] Control:  7 val(64)" ∧
    strContains (reportLine (midi_process controllerRaw50))
      "[50] Control: 7 val(100)" = false := by
  constructor <;> decide

/-- C6 amended: the raw controller event with tick 50, param 7, value 100
normalizes to `tick_time = 50`, `param = 7`, `value = 100`, and the report line
emitted for it contains the text `"[50] Control:  7 val(64)"` — `%2x` renders
the parameter and the value in width-2 hexadecimal, so value 100 prints as
`64` and parameter 7 as `" 7"`. -/
theorem controller_scenario_normalization_and_line :
    (create_pack controllerRaw50).tick_time = 50 ∧
    (create_pack controllerRaw50).param = 7 ∧
    (create_pack controllerRaw50).value = 100 ∧
    strContains (reportLine (midi_process controllerRaw50))
      "[50] Control:  7 val(64)" = true := by
  refine ⟨rfl, rfl, rfl, ?_⟩
  decide

/-! ### Claim C9: fatal handling of session-establishment failures -/

/-- The return codes of the three driver calls `midi_open` performs, in order:
`snd_seq_open`, `snd_seq_set_client_name`, `snd_seq_create_simple_port`.  Each
is an `int`; the `CHK` macro treats a negative value as failure. -/
structure OpenResults where
  openRes : Int
  nameRes : Int
  portRes : Int
deriving DecidableEq, Repr

/-- The diagnostic line the `CHK` macro prints when `snd_seq_open` fails
(`puts("ERROR: "#msg)` stringifies the literal, quotes included). -/
def seqOpenErrLine : String := "ERROR: \x22Could not open sequencer!\x22"

/-- The diagnostic line when `snd_seq_set_client_name` fails. -/
def clientNameErrLine : String := "ERROR: \x22Could not set client name!\x22"

/-- The diagnostic line when `snd_seq_create_simple_port` fails. -/
def portErrLine : String := "ERROR: \x22Could not open port!\x22"

/-- Outcome of `midi_open`: either the session is established, or the process
exited with the given status after printing the given single line. -/
inductive OpenOutcome where
  | ok
  | exited (status : Nat) (line : String)
deriving DecidableEq, Repr

/-- `midi_open`: the three `CHK`-guarded driver calls in source order.  The
first negative return code prints its diagnostic and calls `exit(1)`; later
calls are not reached. -/
def midi_open (r : OpenResults) : OpenOutcome :=
  if r.openRes < 0 then OpenOutcome.exited 1 seqOpenErrLine
  else if r.nameRes < 0 then OpenOutcome.exited 1 clientNameErrLine
  else if r.portRes < 0 then OpenOutcome.exited 1 portErrLine
  else OpenOutcome.ok

/-- Outcome of a whole session: either the process exited during startup with
a status, one diagnostic line and the number of events read before exiting, or
it ran, reading every delivered raw event. -/
inductive ProcOutcome where
  | exitedAt (status : Nat) (line : String) (eventsRead : Nat)
  | ran (reports : List Report)
deriving DecidableEq, Repr

/-- A process-level run: `midi_open` once, then one `midi_read` per delivered
raw event.  `exit(1)` inside `midi_open` terminates the process, so on a
failed open no read is ever attempted. -/
def run_process (r : OpenResults) (raws : List SndSeqEvent) : ProcOutcome :=
  match midi_open r with
  | OpenOutcome.exited s line => ProcOutcome.exitedAt s line 0
  | OpenOutcome.ok => ProcOutcome.ran (raws.map midi_process)

/-- C9: if any of the three session-establishment steps fails, the process
exits with status 1 after printing the single diagnostic line of the first
failing step (the three lines are pairwise distinct, so the line identifies the
step), and zero event reads are attempted. -/
theorem midi_open_failure_is_fatal (r : OpenResults) (raws : List SndSeqEvent)
    (h : r.openRes < 0 ∨ r.nameRes < 0 ∨ r.portRes < 0) :
    ∃ line, run_process r raws = ProcOutcome.exitedAt 1 line 0 ∧
      (r.openRes < 0 → line = seqOpenErrLine) ∧
      (0 ≤ r.openRes → r.nameRes < 0 → line = clientNameErrLine) ∧
      (0 ≤ r.openRes → 0 ≤ r.nameRes → line = portErrLine) ∧
      seqOpenErrLine ≠ clientNameErrLine ∧
      clientNameErrLine ≠ portErrLine ∧
      seqOpenErrLine ≠ portErrLine := by
  unfold run_process midi_open
  by_cases h1 : r.openRes < 0
  · exact ⟨seqOpenErrLine, by simp [h1], fun _ => rfl,
      fun h1' => absurd h1 (not_lt.mpr h1'), fun h1' _ => absurd h1 (not_lt.mpr h1'),
      by decide, by decide, by decide⟩
  · by_cases h2 : r.nameRes < 0
    · exact ⟨clientNameErrLine, by simp [h1, h2], fun hc => absurd hc h1,
        fun _ _ => rfl, fun _ h2' => absurd h2 (not_lt.mpr h2'),
        by decide, by decide, by decide⟩
    · have h3 : r.portRes < 0 := by
        rcases h with h | h | h
        · exact absurd h h1
        · exact absurd h h2
        · exact h
      exact ⟨portErrLine, by simp [h1, h2, h3], fun hc => absurd hc h1,
        fun _ hc => absurd hc h2, fun _ _ => rfl, by decide, by decide, by decide⟩

/-- Witness for C9: with `snd_seq_open` returning -1 and the later steps
succeeding, the process exits with status 1, the sequencer-open diagnostic,
and zero reads. -/
theorem midi_open_failure_is_fatal_witness :
    ∃ line, run_process ⟨-1, 0, 0⟩ [controllerRaw50] =
        ProcOutcome.exitedAt 1 line 0 ∧
      ((-1 : Int) < 0 → line = seqOpenErrLine) ∧
      (0 ≤ (-1 : Int) → (0 : Int) < 0 → line = clientNameErrLine) ∧
      (0 ≤ (-1 : Int) → 0 ≤ (0 : Int) → line = portErrLine) ∧
      seqOpenErrLine ≠ clientNameErrLine ∧
      clientNameErrLine ≠ portErrLine ∧
      seqOpenErrLine ≠ portErrLine :=
  midi_open_failure_is_fatal ⟨-1, 0, 0⟩ [controllerRaw50] (Or.inl (by decide))

/-! ### Claim C10: the unchecked null pointer in `midi_read` -/

/-- The failure observed when a null `snd_seq_event_t` pointer is
dereferenced. -/
inductive DerefNull where
  | nullDeref
deriving DecidableEq, Repr

/-- `midi_read_raw`: initializes the event pointer to `NULL`, lets the driver
fill it, and returns it while ignoring `snd_seq_event_input`'s return code.
`delivered` is the pointer the driver leaves behind: `none` models a failed
driver read that leaves the initial `NULL`. -/
def midi_read_raw (_errCode : Int) (delivered : Option SndSeqEvent) :
    Option SndSeqEvent :=
  delivered

/-- `midi_read` on the possibly-null pointer returned by `midi_read_raw`: the
body immediately dereferences it (in `midi_process`, then `create_pack`) with
no null check, so a null pointer reaches the dereference. -/
def midi_read_checked (p : Option SndSeqEvent) (m : Mem) :
    Except DerefNull ReadResult :=
  match p with
  | none => Except.error DerefNull.nullDeref
  | some raw => Except.ok (midi_read raw m)

/-- C10: `midi_read_raw` passes the driver's pointer through unchanged
whatever the ignored return code was, `midi_read` completes without a null
dereference exactly when that pointer is non-null, and on the input where the
driver read fails (a `NULL` pointer) the null-dereference branch is reached,
not handled. -/
theorem midi_read_null_unguarded (errCode : Int) (delivered : Option SndSeqEvent)
    (m : Mem) :
    midi_read_raw errCode delivered = delivered ∧
    (midi_read_checked (midi_read_raw errCode delivered) m).isOk =
      delivered.isSome ∧
    midi_read_checked (midi_read_raw errCode delivered) m =
      midi_read_checked delivered m ∧
    midi_read_checked none m = Except.error DerefNull.nullDeref := by
  refine ⟨rfl, ?_, rfl, rfl⟩
  cases delivered <;> rfl
